import Mathlib

/-
Shallow embedding of the real-time fan-out layer of the task-tracking web
application: the connection registry, fan-out dispatcher, liveness monitor
and shutdown hook (backend/src/plugins/websocket.js), the message protocol
handler and admission path (backend/src/routes/websocket/index.js), the task
controller's broadcast call sites, the WebSocket authenticator
(controllers/auth-middleware.js), and the client reconnect policy
(frontend/src/websocket.js).
-/

/-- A user record as attached to a connection after authentication
    (the session include selects id, email, name). -/
structure User where
  id : String
  email : String
  name : String
deriving DecidableEq, Repr

/-- A task record, reduced to the fields needed as a fan-out payload. -/
structure TaskRecord where
  id : String
  title : String
deriving DecidableEq, Repr

/-- Per-connection subscription object.  The tasks key is absent (none)
    until first written; a present key holds the boolean flag. -/
structure Subscriptions where
  tasks : Option Bool := none
deriving DecidableEq, Repr

/-- The transport socket.  readyState uses the numeric WebSocket encoding
    (0 CONNECTING, 1 OPEN, 2 CLOSING, 3 CLOSED).  The two Bool fields model
    the environment: whether a send or a close call on this socket raises. -/
structure Socket where
  readyState : Nat
  sendFails : Bool := false
  closeFails : Bool := false
deriving DecidableEq, Repr

/-- A tracked connection: its socket plus the fields the route handler
    attaches (user after authentication, subscriptions on first subscribe). -/
structure Connection where
  socket : Socket
  user : Option User := none
  subscriptions : Option Subscriptions := none
deriving DecidableEq, Repr

/-- The activeConnections Map, as its ordered list of key-value entries
    (a JS Map iterates in insertion order and holds one entry per key). -/
abbrev Registry := List (String × Connection)

/-- addConnection id connection: activeConnections.set(id, connection).
    Map.set replaces the value in place when the key is already present,
    otherwise appends a new entry. -/
def addConnection (id : String) (connection : Connection) (r : Registry) : Registry :=
  if r.any (fun p => p.1 == id) then
    r.map (fun p => if p.1 == id then (id, connection) else p)
  else r ++ [(id, connection)]

/-- removeConnection id: activeConnections.delete(id) — returns whether the
    key was present, removing that entry when it is. -/
def removeConnection (id : String) (r : Registry) : Bool × Registry :=
  if r.any (fun p => p.1 == id) then (true, r.eraseP (fun p => p.1 == id))
  else (false, r)

/-- getConnection id: activeConnections.get(id). -/
def getConnection (id : String) (r : Registry) : Option Connection :=
  (r.find? (fun p => p.1 == id)).map (fun p => p.2)

/-- getConnectionsCount: activeConnections.size. -/
def getConnectionsCount (r : Registry) : Nat := r.length

/-- broadcastFiltered, with the send's possible exception made explicit.
    The source iterates activeConnections.forEach with no try/catch around
    connection.socket.send, so a send that raises propagates out of the
    forEach and aborts the loop.  Returns the list of connection ids on
    which send was invoked (in iteration order) and, when the loop ran to
    completion, Except.ok sentCount; when a send raised, Except.error. -/
def broadcastFiltered (filterFn : Connection → String → Bool) :
    Registry → List String × Except Unit Nat
  | [] => ([], .ok 0)
  | (id, connection) :: rest =>
    if filterFn connection id && connection.socket.readyState == 1 then
      if connection.socket.sendFails then ([id], .error ())
      else
        (id :: (broadcastFiltered filterFn rest).1,
         (broadcastFiltered filterFn rest).2.map (fun k => k + 1))
    else broadcastFiltered filterFn rest

/-- The filter the task controller passes for task events:
    (connection) => connection.user && connection.user.id === userId. -/
def taskEventFilter (userId : String) (connection : Connection) (_id : String) : Bool :=
  match connection.user with
  | some u => u.id == userId
  | none => false

/-- One tick of the liveness monitor interval: for every registry entry,
    ping sockets in state OPEN (1); delete (via removeConnection on the key
    currently visited) entries whose socket state is greater or equal 2.
    Returns the registry after the tick and the ids pinged. -/
def pingTick : Registry → Registry × List String
  | [] => ([], [])
  | (id, connection) :: rest =>
    if connection.socket.readyState == 1 then
      ((id, connection) :: (pingTick rest).1, id :: (pingTick rest).2)
    else if 2 ≤ connection.socket.readyState then pingTick rest
    else ((id, connection) :: (pingTick rest).1, (pingTick rest).2)

/-- A transport-level state change on one connection's socket (for example
    the transport reporting CLOSED, state 3): mutates the socket state in
    place and does not touch registry membership. -/
def setReadyState (id : String) (s : Nat) (r : Registry) : Registry :=
  r.map (fun p =>
    if p.1 == id then (p.1, { p.2 with socket := { p.2.socket with readyState := s } })
    else p)

/-- One close attempt during shutdown: connection.socket.close(1000, ...)
    may raise (the connection may already be gone). -/
def closeSocket (connection : Connection) : Except Unit Unit :=
  if connection.socket.closeFails then .error () else .ok ()

/-- The forEach in the onClose hook: for every connection,
    try close(1000) and ignore errors during shutdown.  Returns the list of
    (id, close code) attempts made. -/
def closeAllConns : Registry → List (String × Nat)
  | [] => []
  | (id, connection) :: rest =>
    match closeSocket connection with
    | .ok _ => (id, 1000) :: closeAllConns rest
    | .error _ => (id, 1000) :: closeAllConns rest

/-- Observable outcome of the shutdown hook. -/
structure ShutdownOutcome where
  timerCleared : Bool
  closeAttempts : List (String × Nat)
  registry : Registry

/-- The onClose hook: clearInterval(pingInterval), close every tracked
    connection with errors ignored, then activeConnections.clear(). -/
def onCloseHook (r : Registry) : ShutdownOutcome :=
  { timerCleared := true
    closeAttempts := closeAllConns r
    registry := [] }

/-- An outbound frame: the JSON object's possible fields; a field that is
    absent from the object is none. -/
structure Frame where
  type : String
  userId : Option String := none
  channel : Option String := none
  error : Option String := none
  task : Option TaskRecord := none
  taskId : Option String := none
  timestamp : Option String := none
deriving DecidableEq, Repr

/-- The CONNECTED frame sent right after admission; now is the ISO-8601
    rendering of the current time. -/
def connectedMessage (userId : String) (now : String) : Frame :=
  { type := "CONNECTED", userId := some userId, timestamp := some now }

/-- An inbound frame after JSON.parse: malformed when parsing threw,
    otherwise the parsed type field. -/
inductive InboundFrame where
  | malformed
  | parsed (msgType : String)

/-- The per-connection message handler switch of the route: returns the
    updated connection and the reply frame. -/
def handleMessage (connection : Connection) (inb : InboundFrame) (now : String) :
    Connection × Frame :=
  match inb with
  | .malformed =>
    (connection,
     { type := "ERROR", error := some "Invalid message format", timestamp := some now })
  | .parsed t =>
    if t == "PING" then
      (connection, { type := "PONG", timestamp := some now })
    else if t == "SUBSCRIBE_TASKS" then
      ({ connection with
          subscriptions := some { (connection.subscriptions.getD {}) with tasks := some true } },
       { type := "SUBSCRIBED", channel := some "tasks", timestamp := some now })
    else if t == "UNSUBSCRIBE_TASKS" then
      ({ connection with
          subscriptions := connection.subscriptions.map (fun s => { s with tasks := some false }) },
       { type := "UNSUBSCRIBED", channel := some "tasks", timestamp := some now })
    else
      (connection,
       { type := "ERROR", error := some "Unknown message type", timestamp := some now })

/-- Effective tasks-subscription flag of a connection: an absent
    subscriptions object or an absent tasks key reads as false. -/
def tasksSubscribed (connection : Connection) : Bool :=
  match connection.subscriptions with
  | none => false
  | some s => s.tasks.getD false

/-- The payload the task controller broadcasts after a create: type and the
    task record only; no timestamp field is written at this call site. -/
def taskCreatedMessage (task : TaskRecord) : Frame :=
  { type := "TASK_CREATED", task := some task }

/-- The payload broadcast after an update: type and task only. -/
def taskUpdatedMessage (task : TaskRecord) : Frame :=
  { type := "TASK_UPDATED", task := some task }

/-- The payload broadcast after a delete: type and taskId only. -/
def taskDeletedMessage (taskId : String) : Frame :=
  { type := "TASK_DELETED", taskId := some taskId }

/-- Connection identity assigned at admission, the template
    user:USERID:TIMESTAMP where the timestamp is Date.now() in whole
    milliseconds rendered in decimal. -/
def connectionId (userId : String) (now : Nat) : String :=
  "user:" ++ userId ++ ":" ++ Nat.repr now

/-- Claims carried by a verified token (decoded.id). -/
structure TokenClaims where
  id : String
deriving DecidableEq, Repr

/-- A session row joined with its user. -/
structure Session where
  user : User
deriving DecidableEq, Repr

/-- The external collaborators of the authenticator: the JWT verifier
    (raises on a malformed or unsigned token) and the session-store query
    (returns none for a missing or expired session; raises on an actual
    store failure). -/
structure AuthEnv where
  verify : String → Except Unit TokenClaims
  findSession : String → Except Unit (Option Session)

/-- Result of authenticateWebSocket as observed by the client: admission,
    or the connection closed with a code and a reason string. -/
inductive AuthResult where
  | accepted (user : User)
  | closed (code : Nat) (reason : String)
deriving DecidableEq, Repr

/-- Body of the inner try block of authenticateWebSocket: jwt.verify, the
    session lookup, the missing-session check and the identity-mismatch
    check; a raise from either collaborator escapes to the inner catch. -/
def innerAuth (env : AuthEnv) (token : String) : Except Unit AuthResult :=
  match env.verify token with
  | .error e => .error e
  | .ok decoded =>
    match env.findSession token with
    | .error e => .error e
    | .ok none => .ok (.closed 1008 "Invalid or expired session")
    | .ok (some session) =>
      if decoded.id == session.user.id then .ok (.accepted session.user)
      else .ok (.closed 1008 "Invalid authentication token")

/-- authenticateWebSocket: the missing-token check, then the inner try
    whose catch closes 1008 "Invalid authentication token".  The outer
    catch of the source (close 1011) guards only code outside the inner try
    (the query-parameter access and the close calls themselves) and has no
    reachable trigger in this model, where token extraction is given as an
    Option. -/
def authenticateWebSocket (env : AuthEnv) (tokenQ : Option String) : AuthResult :=
  match tokenQ with
  | none => .closed 1008 "Authentication required"
  | some token =>
    match innerAuth env token with
    | .ok r => r
    | .error _ => .closed 1008 "Invalid authentication token"

/-- Client-side reconnect state of the WebSocket client. -/
structure ClientState where
  reconnectAttempts : Nat := 0
  connectionError : Option String := none
  isConnected : Bool := false
  isConnecting : Bool := false
deriving DecidableEq, Repr

/-- let maxReconnectAttempts = 10. -/
def maxReconnectAttempts : Nat := 10

/-- Math.min(1000 * Math.pow(1.5, reconnectAttempts), 30000).  Exact over
    the rationals: for every attempt count the guard allows (at most 10),
    1000 * 1.5 ^ n and the min are exactly representable IEEE doubles, so
    the double computation agrees with this rational one. -/
def getReconnectDelay (reconnectAttempts : Nat) : ℚ :=
  min (1000 * (3 / 2 : ℚ) ^ reconnectAttempts) 30000

/-- scheduleReconnect: gives back the updated client state and the delay of
    the timeout scheduled by this call, none when nothing was scheduled.
    The attempt counter is incremented before the delay is computed. -/
def scheduleReconnect (st : ClientState) : ClientState × Option ℚ :=
  if st.reconnectAttempts ≥ maxReconnectAttempts then
    ({ st with connectionError := some "Maximum reconnection attempts reached" }, none)
  else
    ({ st with
        reconnectAttempts := st.reconnectAttempts + 1 },
     some (getReconnectDelay (st.reconnectAttempts + 1)))

/-- handleClose: a close with code 1008 reports an authentication failure
    and never schedules a reconnect; any other close schedules through
    scheduleReconnect. -/
def handleClose (code : Nat) (reason : String) (st : ClientState) : ClientState × Option ℚ :=
  let st0 := { st with isConnected := false, isConnecting := false }
  if code == 1008 then
    ({ st0 with connectionError := some "Authentication failed. Please log in again." }, none)
  else
    scheduleReconnect
      { st0 with
          connectionError := some ("Connection closed (" ++ Nat.repr code ++ "): " ++ reason) }

/-- Number of decimal digit characters Nat.toDigits emits for n. -/
def decimalDigitCount (n : Nat) : Nat :=
  if n < 10 then 1 else decimalDigitCount (n / 10) + 1
termination_by n
decreasing_by exact Nat.div_lt_self (by omega) (by decide)

/-- Reads a digit string back into a number, most significant digit first. -/
def decodeDigits : List Char → Nat → Nat
  | [], acc => acc
  | c :: cs, acc => decodeDigits cs (acc * 10 + (c.toNat - '0'.toNat))

/-- Concrete users for witnesses and counterexamples. -/
def userA : User := { id := "A", email := "alice@example.com", name := "Alice" }

def userB : User := { id := "B", email := "bob@example.com", name := "Bob" }

def connOpenA1 : Connection := { socket := { readyState := 1 }, user := some userA }

def connOpenA2 : Connection :=
  { socket := { readyState := 1 }, user := some userA
    subscriptions := some { tasks := some true } }

def connOpenA3 : Connection :=
  { socket := { readyState := 1 }, user := some userA
    subscriptions := some { tasks := some false } }

def connOpenB1 : Connection := { socket := { readyState := 1 }, user := some userB }

def connOpenB2 : Connection :=
  { socket := { readyState := 1 }, user := some userB
    subscriptions := some { tasks := some true } }

def connClosedA : Connection := { socket := { readyState := 3 }, user := some userA }

/-- Three open connections of user A and two of user B. -/
def regP3 : Registry :=
  [("user:A:1", connOpenA1), ("user:B:1", connOpenB1), ("user:A:2", connOpenA2),
   ("user:B:2", connOpenB2), ("user:A:3", connOpenA3)]

/-- An open connection whose send raises. -/
def connSendBoom : Connection :=
  { socket := { readyState := 1, sendFails := true }, user := some userA }

/-- Two open eligible connections of user A, the first with a raising send. -/
def failingReg : Registry :=
  [("user:A:1", connSendBoom), ("user:A:2", connOpenA1)]

/-- A registry with one open and one closed connection, for tick witnesses. -/
def regTick : Registry := [("i1", connOpenA1), ("i2", connClosedA)]

/-- An environment whose verifier rejects every token (well-formed but
    unsigned token): jwt.verify raises. -/
def envUnsignedToken : AuthEnv :=
  { verify := fun _ => .error (), findSession := fun _ => .ok none }

/-- An environment that verifies the token but has no live session for it
    (missing or expired session). -/
def envExpiredSession : AuthEnv :=
  { verify := fun _ => .ok { id := "u1" }, findSession := fun _ => .ok none }

/-- A client state with three reconnect attempts already made. -/
def clientSt3 : ClientState := { reconnectAttempts := 3 }

deriving instance DecidableEq for Except

/-- Decimal digit characters decode back to their value. -/
theorem digitChar_decode : ∀ d : Nat, d < 10 → (Nat.digitChar d).toNat - '0'.toNat = d := by
  decide

/-- Unfolding decodeDigits over one emitted digit. -/
theorem decodeDigits_cons (c : Char) (cs : List Char) (acc : Nat) :
    decodeDigits (c :: cs) acc = decodeDigits cs (acc * 10 + (c.toNat - '0'.toNat)) := rfl

/-- decimalDigitCount on a one-digit number. -/
theorem decimalDigitCount_of_lt (n : Nat) (h : n < 10) : decimalDigitCount n = 1 := by
  rw [decimalDigitCount]
  simp [h]

/-- decimalDigitCount on a multi-digit number. -/
theorem decimalDigitCount_of_ge (n : Nat) (h : ¬ n < 10) :
    decimalDigitCount n = decimalDigitCount (n / 10) + 1 := by
  rw [decimalDigitCount]
  simp [h]

/-- Reading back the digits Nat.toDigitsCore emits recovers the number,
    shifted past whatever was accumulated so far. -/
theorem decodeDigits_toDigitsCore :
    ∀ f n l acc, 0 < f → n < 10 ^ f →
      decodeDigits (Nat.toDigitsCore 10 f n l) acc
        = decodeDigits l (acc * 10 ^ decimalDigitCount n + n) := by
  intro f
  induction f with
  | zero => intro n l acc h; exact absurd h (lt_irrefl 0)
  | succ f ih =>
    intro n l acc _ hlt
    by_cases hdiv : n / 10 = 0
    · have hn : n < 10 := (Nat.div_eq_zero_iff (by decide)).mp hdiv
      have hunf : Nat.toDigitsCore 10 (f + 1) n l = Nat.digitChar (n % 10) :: l := by
        simp [Nat.toDigitsCore, hdiv]
      rw [hunf, decodeDigits_cons, digitChar_decode (n % 10) (Nat.mod_lt n (by decide)),
        Nat.mod_eq_of_lt hn, decimalDigitCount_of_lt n hn, pow_one]
    · have hge : 10 ≤ n := by
        by_contra hc
        exact hdiv (Nat.div_eq_of_lt (by omega))
      have hf : 0 < f := by
        rcases Nat.eq_zero_or_pos f with hf0 | hf0
        · subst hf0; simp at hlt; omega
        · exact hf0
      have hlt' : n / 10 < 10 ^ f := by
        rw [Nat.div_lt_iff_lt_mul (by decide : 0 < 10)]
        calc n < 10 ^ (f + 1) := hlt
          _ = 10 ^ f * 10 := pow_succ 10 f
      have hunf : Nat.toDigitsCore 10 (f + 1) n l
          = Nat.toDigitsCore 10 f (n / 10) (Nat.digitChar (n % 10) :: l) := by
        simp [Nat.toDigitsCore, hdiv]
      rw [hunf, ih (n / 10) (Nat.digitChar (n % 10) :: l) acc hf hlt', decodeDigits_cons,
        digitChar_decode (n % 10) (Nat.mod_lt n (by omega)), decimalDigitCount_of_ge n (by omega),
        pow_succ, ← mul_assoc]
      congr 1
      have hdm : 10 * (n / 10) + n % 10 = n := Nat.div_add_mod n 10
      generalize acc * 10 ^ decimalDigitCount (n / 10) = q at *
      omega

/-- Reading back the full digit string of n recovers n. -/
theorem decodeDigits_toDigits (n : Nat) : decodeDigits (Nat.toDigits 10 n) 0 = n := by
  have h1 : n < 10 ^ (n + 1) :=
    lt_of_lt_of_le (Nat.lt_pow_self (by decide) n) (Nat.pow_le_pow_right (by decide) (Nat.le_succ n))
  have h2 := decodeDigits_toDigitsCore (n + 1) n [] 0 (Nat.succ_pos n) h1
  simpa [Nat.toDigits, decodeDigits] using h2

/-- The decimal rendering of a natural number is injective. -/
theorem natRepr_injective : Function.Injective Nat.repr := by
  intro a b h
  have hd : Nat.toDigits 10 a = Nat.toDigits 10 b := by
    have hdata := congrArg String.data h
    simpa [Nat.repr, List.asString] using hdata
  calc a = decodeDigits (Nat.toDigits 10 a) 0 := (decodeDigits_toDigits a).symm
    _ = decodeDigits (Nat.toDigits 10 b) 0 := by rw [hd]
    _ = b := decodeDigits_toDigits b

/-- Two admission ids of the same user agree only when the clock readings
    agree. -/
theorem connectionId_inj (u : String) {t1 t2 : Nat}
    (h : connectionId u t1 = connectionId u t2) : t1 = t2 := by
  apply natRepr_injective
  have hd := congrArg String.data h
  simp only [connectionId, String.data_append] at hd
  exact String.ext (List.append_cancel_left hd)

/-- With no raising sends among the eligible connections, the dispatch loop
    runs to completion: the sends are exactly the entries passing the filter
    with an OPEN socket, in iteration order, and the returned count is their
    number. -/
theorem broadcastFiltered_sendOk (filterFn : Connection → String → Bool) :
    ∀ r : Registry, (∀ p ∈ r, p.2.socket.sendFails = false) →
      broadcastFiltered filterFn r =
        (((r.filter (fun p => filterFn p.2 p.1 && p.2.socket.readyState == 1)).map (fun p => p.1)),
         .ok (r.filter (fun p => filterFn p.2 p.1 && p.2.socket.readyState == 1)).length) := by
  intro r
  induction r with
  | nil => intro _; rfl
  | cons p rest ih =>
    intro h
    obtain ⟨id, connection⟩ := p
    have hrest := ih (fun q hq => h q (List.mem_cons_of_mem _ hq))
    have hhead : connection.socket.sendFails = false := h (id, connection) (List.mem_cons_self _ _)
    by_cases hc : (filterFn connection id && connection.socket.readyState == 1) = true
    · simp [broadcastFiltered, hc, hhead, hrest, List.filter_cons, Except.map]
    · simp [broadcastFiltered, hc, hrest, List.filter_cons]

/-- The dispatch outcome never depends on the subscription flags: rewriting
    every connection's subscriptions arbitrarily leaves both the send list
    and the result unchanged. -/
theorem broadcastFiltered_subsIndep (A : String)
    (g : Option Subscriptions → Option Subscriptions) :
    ∀ r : Registry,
      broadcastFiltered (taskEventFilter A)
          (r.map (fun p => (p.1, { p.2 with subscriptions := g p.2.subscriptions })))
        = broadcastFiltered (taskEventFilter A) r := by
  intro r
  induction r with
  | nil => rfl
  | cons p rest ih =>
    obtain ⟨id, connection⟩ := p
    simp only [List.map_cons, broadcastFiltered, taskEventFilter, ih]

/-- C1: dispatching a task event owned by user A sends to exactly the
    registered connections whose owning user id is A and whose socket is
    OPEN, the returned count equals the number of connections written to,
    and the outcome does not depend on any connection's tasks-subscription
    flag. -/
theorem fanout_task_event_scoping (r : Registry) (A : String)
    (hsend : ∀ p ∈ r, p.2.socket.sendFails = false) :
    (broadcastFiltered (taskEventFilter A) r).2
        = Except.ok (broadcastFiltered (taskEventFilter A) r).1.length
    ∧ (∀ id : String, id ∈ (broadcastFiltered (taskEventFilter A) r).1 ↔
        ∃ c : Connection, (id, c) ∈ r ∧ (∃ u : User, c.user = some u ∧ u.id = A)
          ∧ c.socket.readyState = 1)
    ∧ (∀ g : Option Subscriptions → Option Subscriptions,
        broadcastFiltered (taskEventFilter A)
            (r.map (fun p => (p.1, { p.2 with subscriptions := g p.2.subscriptions })))
          = broadcastFiltered (taskEventFilter A) r) := by
  have hrun := broadcastFiltered_sendOk (taskEventFilter A) r hsend
  refine ⟨by rw [hrun]; simp, ?_, fun g => broadcastFiltered_subsIndep A g r⟩
  intro id
  rw [hrun]
  simp only [List.mem_map, List.mem_filter]
  constructor
  · rintro ⟨⟨pid, c⟩, ⟨hmem, hq⟩, rfl⟩
    refine ⟨c, hmem, ?_, ?_⟩
    · rcases hu : c.user with _ | u
      · simp [taskEventFilter, hu] at hq
      · refine ⟨u, rfl, ?_⟩
        simp only [taskEventFilter, hu, Bool.and_eq_true, beq_iff_eq] at hq
        exact hq.1
    · simp only [Bool.and_eq_true, beq_iff_eq] at hq
      exact hq.2
  · rintro ⟨c, hmem, ⟨u, hu, huid⟩, hstate⟩
    refine ⟨(id, c), ⟨hmem, ?_⟩, rfl⟩
    simp [taskEventFilter, hu, huid, hstate]

/-- Witness for C1 at the P3 scenario: three open connections of user A and
    two of user B; the dispatch reaches exactly the three A connections and
    reports count 3. -/
theorem fanout_task_event_scoping_witness :
    (∀ p ∈ regP3, p.2.socket.sendFails = false)
    ∧ ((broadcastFiltered (taskEventFilter "A") regP3).2
          = Except.ok (broadcastFiltered (taskEventFilter "A") regP3).1.length
      ∧ (∀ id : String, id ∈ (broadcastFiltered (taskEventFilter "A") regP3).1 ↔
          ∃ c : Connection, (id, c) ∈ regP3 ∧ (∃ u : User, c.user = some u ∧ u.id = "A")
            ∧ c.socket.readyState = 1)
      ∧ (∀ g : Option Subscriptions → Option Subscriptions,
          broadcastFiltered (taskEventFilter "A")
              (regP3.map (fun p => (p.1, { p.2 with subscriptions := g p.2.subscriptions })))
            = broadcastFiltered (taskEventFilter "A") regP3)) :=
  ⟨by decide, fanout_task_event_scoping regP3 "A" (by decide)⟩

/-- C2: at this input the send to the first eligible open connection of
    user A raises; the forEach has no try/catch, so the loop aborts with
    the exception and the second eligible open connection of the same user
    is never attempted. -/
theorem broadcast_send_failure_aborts_loop :
    broadcastFiltered (taskEventFilter "A") failingReg = (["user:A:1"], .error ())
    ∧ "user:A:2" ∉ (broadcastFiltered (taskEventFilter "A") failingReg).1
    ∧ ("user:A:2", connOpenA1) ∈ failingReg
    ∧ taskEventFilter "A" connOpenA1 "user:A:2" = true
    ∧ connOpenA1.socket.readyState = 1 := by
  decide

/-- C3 counterexample: a well-formed-but-unsigned token and an expired
    session both close with code 1008, but the close frames carry different
    reason strings, so the observable results are not identical and the
    payload distinguishes which check failed. -/
theorem auth_failure_payloads_distinguish_causes :
    authenticateWebSocket envUnsignedToken (some "tok")
        = .closed 1008 "Invalid authentication token"
    ∧ authenticateWebSocket envExpiredSession (some "tok")
        = .closed 1008 "Invalid or expired session"
    ∧ authenticateWebSocket envUnsignedToken (some "tok")
        ≠ authenticateWebSocket envExpiredSession (some "tok") := by
  refine ⟨rfl, rfl, ?_⟩
  decide

/-- C3 amended: every authentication-failure cause closes the upgrade with
    code 1008, but the reason string depends on the cause (missing token,
    missing or expired session, and token failures each have their own
    text); a raising session store is caught by the same inner handler as a
    bad token and also closes with 1008, and no path of the validation
    logic reaches code 1011. -/
theorem auth_uniform_close_code (env : AuthEnv) (tokenQ : Option String) :
    (tokenQ = none →
      authenticateWebSocket env tokenQ = .closed 1008 "Authentication required")
    ∧ (∀ t, tokenQ = some t → env.verify t = .error () →
        authenticateWebSocket env tokenQ = .closed 1008 "Invalid authentication token")
    ∧ (∀ t d, tokenQ = some t → env.verify t = .ok d → env.findSession t = .ok none →
        authenticateWebSocket env tokenQ = .closed 1008 "Invalid or expired session")
    ∧ (∀ t d s, tokenQ = some t → env.verify t = .ok d → env.findSession t = .ok (some s) →
        d.id ≠ s.user.id →
        authenticateWebSocket env tokenQ = .closed 1008 "Invalid authentication token")
    ∧ (∀ t d, tokenQ = some t → env.verify t = .ok d → env.findSession t = .error () →
        authenticateWebSocket env tokenQ = .closed 1008 "Invalid authentication token")
    ∧ (∀ code reason, authenticateWebSocket env tokenQ = .closed code reason → code = 1008) := by
  refine ⟨?_, ?_, ?_, ?_, ?_, ?_⟩
  · rintro rfl; rfl
  · rintro t rfl hv
    simp [authenticateWebSocket, innerAuth, hv]
  · rintro t d rfl hv hs
    simp [authenticateWebSocket, innerAuth, hv, hs]
  · rintro t d s rfl hv hs hne
    simp only [authenticateWebSocket, innerAuth, hv, hs]
    rw [if_neg (by simpa using hne)]
  · rintro t d rfl hv hs
    simp [authenticateWebSocket, innerAuth, hv, hs]
  · intro code reason h
    rcases tokenQ with _ | t
    · simp only [authenticateWebSocket, AuthResult.closed.injEq] at h
      exact h.1.symm
    · simp only [authenticateWebSocket, innerAuth] at h
      rcases hv : env.verify t with e | d <;> rw [hv] at h <;> (try dsimp only at h)
      · simp only [AuthResult.closed.injEq] at h
        exact h.1.symm
      · rcases hs : env.findSession t with e | s? <;> rw [hs] at h <;> (try dsimp only at h)
        · simp only [AuthResult.closed.injEq] at h
          exact h.1.symm
        · rcases s? with _ | s <;> (try dsimp only at h)
          · simp only [AuthResult.closed.injEq] at h
            exact h.1.symm
          · by_cases hid : (d.id == s.user.id) = true
            · rw [if_pos hid] at h
              exact absurd h (by simp)
            · rw [if_neg hid] at h
              simp only [AuthResult.closed.injEq] at h
              exact h.1.symm

/-- Witness for the C3 amended theorem: the expired-session cause at a
    concrete environment closes with 1008 and its own reason text. -/
theorem auth_uniform_close_code_witness :
    authenticateWebSocket envExpiredSession (some "tok")
      = .closed 1008 "Invalid or expired session" :=
  (auth_uniform_close_code envExpiredSession (some "tok")).2.2.1 "tok"
    { id := "u1" } rfl rfl rfl

/-- C4 counterexample: the TASK_CREATED fan-out payload built by the task
    controller carries no timestamp field at all. -/
theorem task_created_message_has_no_timestamp :
    (taskCreatedMessage { id := "t1", title := "Write the spec" }).timestamp = none := rfl

/-- C4 amended: the protocol frames CONNECTED, PONG, SUBSCRIBED,
    UNSUBSCRIBED and ERROR all carry the current timestamp, while the
    fan-out payloads TASK_CREATED, TASK_UPDATED and TASK_DELETED are built
    without a timestamp field. -/
theorem outbound_frame_timestamps (uid now : String) (connection : Connection)
    (inb : InboundFrame) (task : TaskRecord) (tid : String) :
    (connectedMessage uid now).timestamp = some now
    ∧ (handleMessage connection inb now).2.timestamp = some now
    ∧ (taskCreatedMessage task).timestamp = none
    ∧ (taskUpdatedMessage task).timestamp = none
    ∧ (taskDeletedMessage tid).timestamp = none := by
  refine ⟨rfl, ?_, rfl, rfl, rfl⟩
  rcases inb with _ | t
  · rfl
  · simp only [handleMessage]
    by_cases h1 : (t == "PING") = true
    · simp [h1]
    · by_cases h2 : (t == "SUBSCRIBE_TASKS") = true
      · simp [h1, h2]
      · by_cases h3 : (t == "UNSUBSCRIBE_TASKS") = true
        · simp [h1, h2, h3]
        · simp [h1, h2, h3]

/-- C5 counterexample: two distinct connections of the same user admitted
    in the same clock millisecond are assigned the same registry id, and
    inserting the second displaces the first (the registry keeps one entry,
    holding the second connection). -/
theorem same_millisecond_id_collision :
    connOpenA1 ≠ connOpenA2
    ∧ connectionId "A" 1700000000000 = connectionId "A" 1700000000000
    ∧ getConnection (connectionId "A" 1700000000000)
        (addConnection (connectionId "A" 1700000000000) connOpenA2
          (addConnection (connectionId "A" 1700000000000) connOpenA1 ([] : Registry)))
        = some connOpenA2
    ∧ getConnectionsCount
        (addConnection (connectionId "A" 1700000000000) connOpenA2
          (addConnection (connectionId "A" 1700000000000) connOpenA1 ([] : Registry)))
        = 1 := by
  decide

/-- C5 amended: for a fixed user, two admission ids coincide exactly when
    the millisecond clock readings coincide — ids are unique across
    admissions at distinct milliseconds, while a same-millisecond insert
    reuses the id and displaces the earlier connection. -/
theorem connection_id_collision_iff (u : String) (t1 t2 : Nat) :
    (connectionId u t1 = connectionId u t2 ↔ t1 = t2)
    ∧ (∀ c1 c2 : Connection,
        getConnection (connectionId u t1)
          (addConnection (connectionId u t1) c2
            (addConnection (connectionId u t1) c1 ([] : Registry))) = some c2) := by
  constructor
  · exact ⟨connectionId_inj u, fun h => by rw [h]⟩
  · intro c1 c2
    simp [addConnection, getConnection]

/-- A tick keeps exactly the entries whose socket state is below 2. -/
theorem pingTick_fst : ∀ r : Registry,
    (pingTick r).1 = r.filter (fun p => decide (p.2.socket.readyState < 2)) := by
  intro r
  induction r with
  | nil => rfl
  | cons p rest ih =>
    obtain ⟨id, c⟩ := p
    by_cases h1 : (c.socket.readyState == 1) = true
    · have h1' : c.socket.readyState = 1 := beq_iff_eq.mp h1
      simp [pingTick, h1, ih, List.filter_cons, h1']
    · by_cases h2 : 2 ≤ c.socket.readyState
      · have h2' : ¬ c.socket.readyState < 2 := by omega
        simp [pingTick, h1, h2, ih, List.filter_cons, h2']
      · have h2' : c.socket.readyState < 2 := by omega
        simp [pingTick, h1, h2, ih, List.filter_cons, h2']

/-- A tick pings exactly the entries whose socket state is OPEN. -/
theorem pingTick_snd : ∀ r : Registry,
    (pingTick r).2 = (r.filter (fun p => p.2.socket.readyState == 1)).map (fun p => p.1) := by
  intro r
  induction r with
  | nil => rfl
  | cons p rest ih =>
    obtain ⟨id, c⟩ := p
    by_cases h1 : (c.socket.readyState == 1) = true
    · simp [pingTick, h1, ih, List.filter_cons]
    · by_cases h2 : 2 ≤ c.socket.readyState
      · simp [pingTick, h1, h2, ih, List.filter_cons]
      · simp [pingTick, h1, h2, ih, List.filter_cons]

/-- A transport-level socket-state change leaves the registered ids
    untouched. -/
theorem setReadyState_keys (id : String) (s : Nat) (r : Registry) :
    (setReadyState id s r).map (fun p => p.1) = r.map (fun p => p.1) := by
  simp only [setReadyState, List.map_map]
  apply List.map_congr_left
  intro p _
  simp only [Function.comp_apply]
  split <;> rfl

/-- C6: on a monitor tick every registered connection with an OPEN socket
    is pinged and stays registered, every connection whose socket state is
    CLOSING or CLOSED is dropped from the registry, and a transport-level
    transition to CLOSED by itself does not change which ids are
    registered — the eviction happens only at the next tick. -/
theorem liveness_tick_behavior (r : Registry) (id : String) (c : Connection) :
    ((id, c) ∈ r → c.socket.readyState = 1 →
      (id, c) ∈ (pingTick r).1 ∧ id ∈ (pingTick r).2)
    ∧ ((id, c) ∈ r → 2 ≤ c.socket.readyState → (id, c) ∉ (pingTick r).1)
    ∧ (setReadyState id 3 r).map (fun p => p.1) = r.map (fun p => p.1) := by
  refine ⟨?_, ?_, setReadyState_keys id 3 r⟩
  · intro hmem hopen
    constructor
    · rw [pingTick_fst]
      exact List.mem_filter.mpr ⟨hmem, by simp [hopen]⟩
    · rw [pingTick_snd]
      exact List.mem_map.mpr ⟨(id, c), List.mem_filter.mpr ⟨hmem, by simp [hopen]⟩, rfl⟩
  · intro _ hclosed habs
    rw [pingTick_fst] at habs
    have := (List.mem_filter.mp habs).2
    simp only [decide_eq_true_eq] at this
    omega

/-- Witness for C6 at a concrete registry holding one OPEN and one CLOSED
    connection: the open one is pinged and kept, the closed one is dropped
    by the tick. -/
theorem liveness_tick_behavior_witness :
    ((("i1", connOpenA1) ∈ regTick ∧ connOpenA1.socket.readyState = 1)
      ∧ (("i1", connOpenA1) ∈ (pingTick regTick).1 ∧ "i1" ∈ (pingTick regTick).2))
    ∧ ((("i2", connClosedA) ∈ regTick ∧ 2 ≤ connClosedA.socket.readyState)
      ∧ ("i2", connClosedA) ∉ (pingTick regTick).1) :=
  ⟨⟨⟨by decide, by decide⟩,
    (liveness_tick_behavior regTick "i1" connOpenA1).1 (by decide) (by decide)⟩,
   ⟨⟨by decide, by decide⟩,
    (liveness_tick_behavior regTick "i2" connClosedA).2.1 (by decide) (by decide)⟩⟩

/-- C7: removing an absent id reports false and returns the registry
    unchanged; removing a present id reports true and shrinks the registry
    by exactly one entry. -/
theorem registry_remove_semantics (r : Registry) (id : String) :
    (id ∉ r.map (fun p => p.1) → removeConnection id r = (false, r))
    ∧ (id ∈ r.map (fun p => p.1) →
        (removeConnection id r).1 = true
        ∧ getConnectionsCount (removeConnection id r).2 + 1 = getConnectionsCount r) := by
  constructor
  · intro habs
    have hany : r.any (fun p => p.1 == id) = false := by
      rw [List.any_eq_false]
      intro p hp
      simp only [beq_iff_eq]
      intro hpe
      exact habs (List.mem_map.mpr ⟨p, hp, hpe⟩)
    simp [removeConnection, hany]
  · intro hmem
    obtain ⟨p, hp, hpe⟩ := List.mem_map.mp hmem
    have hany : r.any (fun p => p.1 == id) = true :=
      List.any_eq_true.mpr ⟨p, hp, by simp [hpe]⟩
    have hlen : (r.eraseP (fun p => p.1 == id)).length = r.length - 1 :=
      List.length_eraseP_of_mem hp (by simp [hpe])
    have hpos : 0 < r.length := List.length_pos.mpr (by rintro rfl; cases hp)
    constructor
    · simp [removeConnection, hany]
    · simp only [removeConnection, hany, if_true, getConnectionsCount, hlen]
      omega

/-- Witness for C7: at a concrete two-entry registry, removing an absent id
    is a no-op reporting false, removing a present id reports true and
    drops the size from 2 to 1. -/
theorem registry_remove_semantics_witness :
    (("zz" ∉ regTick.map (fun p => p.1)) ∧ removeConnection "zz" regTick = (false, regTick))
    ∧ (("i1" ∈ regTick.map (fun p => p.1))
        ∧ (removeConnection "i1" regTick).1 = true
        ∧ getConnectionsCount (removeConnection "i1" regTick).2 + 1
            = getConnectionsCount regTick) :=
  ⟨⟨by decide, (registry_remove_semantics regTick "zz").1 (by decide)⟩,
   ⟨by decide, (registry_remove_semantics regTick "i1").2 (by decide)⟩⟩

/-- The shutdown loop attempts a close with code 1000 on every connection,
    whether or not an individual close raises. -/
theorem closeAllConns_eq : ∀ r : Registry,
    closeAllConns r = r.map (fun p => (p.1, 1000)) := by
  intro r
  induction r with
  | nil => rfl
  | cons p rest ih =>
    obtain ⟨id, c⟩ := p
    by_cases h : c.socket.closeFails = true
    · simp [closeAllConns, closeSocket, h, ih]
    · simp [closeAllConns, closeSocket, h, ih]

/-- C8: on shutdown the liveness timer is stopped, a close with code 1000
    is attempted on every registered connection — errors raised by
    individual closes are suppressed and never shorten the attempt list —
    and the registry ends empty. -/
theorem shutdown_closes_all_and_clears (r : Registry) :
    (onCloseHook r).timerCleared = true
    ∧ (onCloseHook r).closeAttempts = r.map (fun p => (p.1, 1000))
    ∧ getConnectionsCount (onCloseHook r).registry = 0 :=
  ⟨rfl, closeAllConns_eq r, rfl⟩

/-- C9: an UNSUBSCRIBE_TASKS frame always draws the UNSUBSCRIBED
    confirmation for the tasks channel and never an error, leaves the
    effective tasks flag false (also on a connection that never
    subscribed), and when a subscriptions object exists its tasks key is
    set to false rather than removed. -/
theorem unsubscribe_idempotent_confirm (connection : Connection) (now : String) :
    (handleMessage connection (.parsed "UNSUBSCRIBE_TASKS") now).2
        = { type := "UNSUBSCRIBED", channel := some "tasks", timestamp := some now }
    ∧ (handleMessage connection (.parsed "UNSUBSCRIBE_TASKS") now).2.type ≠ "ERROR"
    ∧ tasksSubscribed (handleMessage connection (.parsed "UNSUBSCRIBE_TASKS") now).1 = false
    ∧ (handleMessage connection (.parsed "UNSUBSCRIBE_TASKS") now).1.subscriptions
        = connection.subscriptions.map (fun s => { s with tasks := some false }) := by
  refine ⟨rfl, by show ("UNSUBSCRIBED" : String) ≠ "ERROR"; decide, ?_, rfl⟩
  show tasksSubscribed { connection with
    subscriptions := connection.subscriptions.map (fun s => { s with tasks := some false }) } = false
  rcases connection.subscriptions with _ | s <;> rfl

/-- C10: the client never schedules a reconnect after a 1008
    (authentication-failure) close; after any other close with n - 1
    attempts already made and n at most the maximum, the n-th attempt is
    scheduled after min(1000 * 1.5 ^ n, 30000) milliseconds; once 10
    attempts have been made no further reconnect is scheduled. -/
theorem reconnect_policy (st : ClientState) (code : Nat) (reason : String) (n : Nat) :
    (code = 1008 → (handleClose code reason st).2 = none)
    ∧ (code ≠ 1008 → st.reconnectAttempts + 1 = n → n ≤ maxReconnectAttempts →
        (handleClose code reason st).2 = some (min (1000 * (3 / 2 : ℚ) ^ n) 30000)
        ∧ (handleClose code reason st).1.reconnectAttempts = n)
    ∧ (code ≠ 1008 → maxReconnectAttempts ≤ st.reconnectAttempts →
        (handleClose code reason st).2 = none) := by
  refine ⟨?_, ?_, ?_⟩
  · rintro rfl
    simp [handleClose]
  · intro hne hn hle
    have hcode : (code == 1008) = false := by simp [hne]
    have hguard : ¬ st.reconnectAttempts ≥ maxReconnectAttempts := by
      simp only [maxReconnectAttempts] at *
      omega
    constructor
    · simp [handleClose, hcode, scheduleReconnect, hguard, getReconnectDelay, hn]
    · simp [handleClose, hcode, scheduleReconnect, hguard, hn]
  · intro hne hge
    have hcode : (code == 1008) = false := by simp [hne]
    simp [handleClose, hcode, scheduleReconnect, hge]

/-- Witness for C10: with three attempts already made, a 1006 close
    schedules the fourth attempt after 5062.5 ms, and a 1008 close
    schedules nothing. -/
theorem reconnect_policy_witness :
    (((1006 : Nat) ≠ 1008 ∧ clientSt3.reconnectAttempts + 1 = 4 ∧ 4 ≤ maxReconnectAttempts)
      ∧ ((handleClose 1006 "gone" clientSt3).2 = some (min (1000 * (3 / 2 : ℚ) ^ 4) 30000)
        ∧ (handleClose 1006 "gone" clientSt3).1.reconnectAttempts = 4))
    ∧ (handleClose 1008 "auth" clientSt3).2 = none :=
  ⟨⟨⟨by decide, by decide, by decide⟩,
    (reconnect_policy clientSt3 1006 "gone" 4).2.1 (by decide) (by decide) (by decide)⟩,
   (reconnect_policy clientSt3 1008 "auth" 4).1 rfl⟩
